import Mathlib

/-!
Verification development for the Mopeka BLE advertisement parser
(`src/mopeka_ble/parser.py`).

The Python module is shallowly embedded as follows:

* Python `float` arithmetic on the small decimal constants of the parser is
  modelled by exact rational arithmetic (`ℚ`); every decimal literal of the
  source is an exact rational here.
* Python `int(x)` on a float (truncation toward zero) is `pyInt`;
  Python `round(x, 1)` (round half to even, one decimal place) is `pyRound1`.
* The mutable `MopekaBluetoothDeviceData` object is a record
  (`structure MopekaBluetoothDeviceData`); methods become functions from the
  record to the record.  A raised Python exception (`KeyError`, `IndexError`,
  `OverflowError`) is an `Except.error` result.
* The advertisement input (`BluetoothServiceInfo`) carries the set of service
  UUIDs, the manufacturer-data mapping (an insertion-ordered association
  list, as a Python `dict` is), and the source address.
* External base-class helpers (`changed_manufacturer_data`, `update_sensor`,
  the `set_*` metadata setters, `short_address`) are modelled at their
  interface boundary; each carries a doc comment saying what is modelled.
-/

namespace MopekaBle

/-- Truncation toward zero of a rational, the behaviour of Python `int()`
applied to a float (parser.py lines 162 and 177). -/
def pyInt (q : ℚ) : ℤ :=
  if q < 0 then ⌈q⌉ else ⌊q⌋

/-- Round half to even to the nearest integer, the tie rule of Python
`round`. -/
def pyRoundHalfEven (q : ℚ) : ℤ :=
  if q - ⌊q⌋ < 1/2 then ⌊q⌋
  else if (1 : ℚ)/2 < q - ⌊q⌋ then ⌊q⌋ + 1
  else if ⌊q⌋ % 2 = 0 then ⌊q⌋ else ⌊q⌋ + 1

/-- Python `round(x, 1)`: round to the nearest multiple of one tenth,
ties to even (parser.py line 150). -/
def pyRound1 (q : ℚ) : ℚ :=
  (pyRoundHalfEven (q * 10) : ℚ) / 10

/- The sensor-key strings of `class MopekaSensor(StrEnum)`
(parser.py lines 19-27); `str(...)` of a member is its value. -/
namespace MopekaSensor

def LEVEL : String := "level"

def BATTERY : String := "battery"

def TEMPERATURE : String := "temperature"

def QUALITY : String := "quality"

def SIGNAL_STRENGTH : String := "signal_strength"

def X_POSITION : String := "x_position"

def Y_POSITION : String := "y_position"

end MopekaSensor

/-- `@dataclass class MopekaDevice` (parser.py lines 30-34). -/
structure MopekaDevice where
  model : String
  name : String
deriving DecidableEq

/-- `DEVICE_TYPES` (parser.py lines 37-41): the device registry, a Python
dict from device-type byte to `MopekaDevice`, kept in insertion order. -/
def DEVICE_TYPES : List (Nat × MopekaDevice) :=
  [ (0x03, ⟨"Mopeka Pro Check", "Propane Tank"⟩)
  , (0x04, ⟨"Mopeka Air Space", "Tank"⟩)
  , (0x05, ⟨"Mopeka Pro Check Water", "Water Tank"⟩) ]

/-- `MOPEKA_TANK_LEVEL_COEFFICIENTS_PROPANE = (0.573045, -0.002822,
-0.00000535)` (parser.py line 44), float literals taken as exact
rationals. -/
def MOPEKA_TANK_LEVEL_COEFFICIENTS_PROPANE : ℚ × ℚ × ℚ :=
  (0.573045, -0.002822, -0.00000535)

/-- `SERVICE_UUID` (parser.py line 48). -/
def SERVICE_UUID : String := "0000fee5-0000-1000-8000-00805f9b34fb"

/-- External helper `bluetooth_data_tools.short_address`, modelled at its
interface boundary: some human-readable rendering of the BLE address.  No
claim depends on its value, so it is modelled as the identity on the
address string. -/
def short_address (address : String) : String := address

/-- A raised Python exception escaping the decoder. -/
inductive PyErr where
  | keyError (key : Nat)
  | indexError
  | overflowError
deriving DecidableEq

/-- The advertisement input of `_start_update`: the advertised service
UUIDs, the manufacturer-data mapping (an insertion-ordered association
list keyed by the 16-bit manufacturer identifier, as a Python dict is),
and the device address (spec section 6). -/
structure BluetoothServiceInfo where
  service_uuids : List String
  manufacturer_data : List (Nat × List Nat)
  address : String

/-- The `MopekaBluetoothDeviceData` object (parser.py line 51): its two
constructor parameters, the metadata fields written by the base-class
setters (absent before the first update, hence `Option`), the per-frame
scratch attributes (`_raw_*`, `ReadingQualityStars`; unset before the
first processed frame, modelled with arbitrary initial contents), and the
sensor-state store filled by `update_sensor`, a mapping from sensor key to
(value, name). -/
structure MopekaBluetoothDeviceData where
  _max_height : ℚ
  _min_height : ℚ
  precision : Option Nat
  device_type : Option String
  title : Option String
  device_name : Option String
  manufacturer : Option String
  _raw_battery : Nat
  _raw_temp : Nat
  _raw_tank_level : Nat
  ReadingQualityStars : Nat
  _raw_x_accel : Nat
  _raw_y_accel : Nat
  sensors : String → Option (ℚ × String)

attribute [ext] MopekaBluetoothDeviceData

namespace MopekaBluetoothDeviceData

/-- `__init__` (parser.py lines 54-62) with explicit height arguments
(source defaults: `max_height = 256.0`, `min_height = 38.1`).  Scratch
attributes do not exist yet in Python; they start as zero here and no
theorem reads them before a frame writes them. -/
def init (max_height min_height : ℚ) : MopekaBluetoothDeviceData where
  _max_height := max_height
  _min_height := min_height
  precision := none
  device_type := none
  title := none
  device_name := none
  manufacturer := none
  _raw_battery := 0
  _raw_temp := 0
  _raw_tank_level := 0
  ReadingQualityStars := 0
  _raw_x_accel := 0
  _raw_y_accel := 0
  sensors := fun _ => none

/-- External base-class helper `changed_manufacturer_data`, modelled at the
interface boundary of spec section 6: it delivers the manufacturer-data
mapping observed in the current advertisement event. -/
def changed_manufacturer_data (_self : MopekaBluetoothDeviceData)
    (service_info : BluetoothServiceInfo) : List (Nat × List Nat) :=
  service_info.manufacturer_data

/-- External base-class helper `update_sensor(key, device_id=None, value,
device_class=None, name)`, modelled at its boundary: it stores (value,
name) under `key` in the sensor-state mapping (the unused `None` arguments
are dropped). -/
def update_sensor (self : MopekaBluetoothDeviceData) (key : String)
    (native_value : ℚ) (name : String) : MopekaBluetoothDeviceData :=
  { self with sensors := fun k => if k = key then some (native_value, name) else self.sensors k }

/-- The five base-class metadata setters called on a recognised device type
(parser.py lines 84-88): `set_precision(0)`, `set_device_type(model)`,
`set_title(f"{name} {short_address(addr)}")`, `set_device_name(...)` with
the same string, `set_device_manufacturer("Mopeka")`.  Each is modelled as
writing the corresponding record field. -/
def set_metadata (self : MopekaBluetoothDeviceData) (device_type : MopekaDevice)
    (address : String) : MopekaBluetoothDeviceData :=
  { self with
      precision := some 0
      device_type := some device_type.model
      title := some (device_type.name ++ " " ++ short_address address)
      device_name := some (device_type.name ++ " " ++ short_address address)
      manufacturer := some "Mopeka" }

/-- `BatteryVoltage` (parser.py lines 137-140): `self._raw_battery / 32.0`. -/
def BatteryVoltage (self : MopekaBluetoothDeviceData) : ℚ :=
  (self._raw_battery : ℚ) / 32

/-- `BatteryPercent` (parser.py lines 142-150). -/
def BatteryPercent (self : MopekaBluetoothDeviceData) : ℚ :=
  let percent := ((self.BatteryVoltage - 2.2) / 0.65) * 100
  if percent > 100.0 then 100.0
  else if percent < 0.0 then 0.0
  else pyRound1 percent

/-- `TemperatureInCelsius` (parser.py lines 152-157): `self._raw_temp - 40`. -/
def TemperatureInCelsius (self : MopekaBluetoothDeviceData) : ℤ :=
  (self._raw_temp : ℤ) - 40

/-- `TankLevelInMM` (parser.py lines 159-173). -/
def TankLevelInMM (self : MopekaBluetoothDeviceData) : ℤ :=
  pyInt ((self._raw_tank_level : ℚ) *
    (MOPEKA_TANK_LEVEL_COEFFICIENTS_PROPANE.1
      + MOPEKA_TANK_LEVEL_COEFFICIENTS_PROPANE.2.1 * (self._raw_temp : ℚ)
      + MOPEKA_TANK_LEVEL_COEFFICIENTS_PROPANE.2.2 * (self._raw_temp : ℚ)
          * (self._raw_temp : ℚ)))

/-- `TankLevelInPercent` (parser.py lines 175-180). -/
def TankLevelInPercent (self : MopekaBluetoothDeviceData) : ℤ :=
  pyInt ((((self.TankLevelInMM : ℚ) - self._min_height) * 100.0)
    / (self._max_height - self._min_height))

/-- `XPosition` (parser.py lines 182-184): `self._raw_x_accel`. -/
def XPosition (self : MopekaBluetoothDeviceData) : ℕ :=
  self._raw_x_accel

/-- `YPosition` (parser.py lines 186-188): `self._raw_y_accel`. -/
def YPosition (self : MopekaBluetoothDeviceData) : ℕ :=
  self._raw_y_accel

/-- `_process_update` (parser.py lines 91-135): length gate, bitfield
extraction into the scratch attributes, then the six `update_sensor`
calls.  The source publishes the X- and Y-position values under
`str(MopekaSensor.QUALITY)`, exactly as lines 122-135 do.  Indexing is by
`List.getD`; every index the source uses here is below 12 and the branch
runs only when the length is exactly 12. -/
def _process_update (self : MopekaBluetoothDeviceData) (data : List Nat) :
    MopekaBluetoothDeviceData :=
  if data.length ≠ 12 then self
  else
    let self := { self with
      _raw_battery := data.getD 3 0 &&& 0x7F
      _raw_temp := data.getD 4 0 &&& 0x7F
      _raw_tank_level := ((data.getD 6 0 <<< 8) + data.getD 5 0) &&& 0x3FFF
      ReadingQualityStars := data.getD 6 0 >>> 6
      _raw_x_accel := data.getD 10 0
      _raw_y_accel := data.getD 11 0 }
    let self := self.update_sensor MopekaSensor.LEVEL (self.TankLevelInPercent : ℚ) "Level"
    let self := self.update_sensor MopekaSensor.BATTERY self.BatteryPercent "Battery"
    let self := self.update_sensor MopekaSensor.TEMPERATURE (self.TemperatureInCelsius : ℚ) "Temperature"
    let self := self.update_sensor MopekaSensor.QUALITY (self.ReadingQualityStars : ℚ) "Quality"
    let self := self.update_sensor MopekaSensor.QUALITY (self.XPosition : ℚ) "X Position"
    let self := self.update_sensor MopekaSensor.QUALITY (self.YPosition : ℚ) "Y Position"
    self

end MopekaBluetoothDeviceData

/-- The candidate-frame reconstruction of `_start_update` (parser.py lines
73-77): `last_id = list(changed)[-1]` takes the key appearing last in the
mapping's iteration order, `int(last_id).to_bytes(2, "little")` yields the
two little-endian identifier bytes (raising `OverflowError`, here `none`,
for an identifier of 65536 or more), and `changed[last_id]` is dict lookup
of that key.  Returns `none` also on an empty mapping, a case
`_start_update` has already excluded when it calls this. -/
def reconstructed_frame (md : List (Nat × List Nat)) : Option (List Nat) :=
  match (md.map Prod.fst).getLast? with
  | none => none
  | some last_id =>
    if 65536 ≤ last_id then none
    else
      match md.lookup last_id with
      | none => none
      | some payload => some (last_id % 256 :: last_id / 256 % 256 :: payload)

/-- Following the spec's words, for comparison with the code: select the
manufacturer-data entry whose identifier key is numerically greatest and
reconstruct the 2-byte little-endian identifier followed by its payload. -/
def spec_greatest_frame (md : List (Nat × List Nat)) : Option (List Nat) :=
  match (md.map Prod.fst).max? with
  | none => none
  | some greatest_id =>
    match md.lookup greatest_id with
    | none => none
    | some payload => some (greatest_id % 256 :: greatest_id / 256 % 256 :: payload)

namespace MopekaBluetoothDeviceData

/-- The tail of `_start_update` from `device_id = data[2]` onward
(parser.py lines 81-89): `data[2]` raises `IndexError` on a frame shorter
than 3 bytes, `DEVICE_TYPES[device_id]` raises `KeyError` for an
unregistered device-type byte, otherwise the metadata setters run and the
frame is handed to `_process_update`. -/
def handle_frame (self : MopekaBluetoothDeviceData) (address : String)
    (data : List Nat) : Except PyErr MopekaBluetoothDeviceData :=
  match data[2]? with
  | none => .error .indexError
  | some device_id =>
    match DEVICE_TYPES.lookup device_id with
    | none => .error (.keyError device_id)
    | some device_type =>
      .ok ((self.set_metadata device_type address)._process_update data)

/-- `_start_update` (parser.py lines 64-89): service-UUID gate, changed
manufacturer-data gate, candidate-frame reconstruction, then
`handle_frame`.  The commented-out length check of lines 78-80 is dead
code and is not modelled. -/
def _start_update (self : MopekaBluetoothDeviceData)
    (service_info : BluetoothServiceInfo) :
    Except PyErr MopekaBluetoothDeviceData :=
  if SERVICE_UUID ∉ service_info.service_uuids then .ok self
  else
    let changed := self.changed_manufacturer_data service_info
    if changed.isEmpty then .ok self
    else
      match reconstructed_frame changed with
      | none => .error .overflowError
      | some data => self.handle_frame service_info.address data

end MopekaBluetoothDeviceData

open MopekaBluetoothDeviceData

/-- Dict lookup of the last-inserted key returns the last entry, provided
the keys are distinct (they are, in a Python dict). -/
lemma lookup_getLast (md : List (Nat × List Nat)) (h : md ≠ [])
    (hnd : (md.map Prod.fst).Nodup) :
    md.lookup (md.getLast h).1 = some (md.getLast h).2 := by
  induction md with
  | nil => exact absurd rfl h
  | cons a rest ih =>
    cases rest with
    | nil => simp [List.lookup]
    | cons b t =>
      have hne : (b :: t) ≠ [] := by simp
      have hmem : ((b :: t).getLast hne).1 ∈ (b :: t).map Prod.fst :=
        List.mem_map_of_mem Prod.fst (List.getLast_mem hne)
      rw [List.map_cons] at hnd
      have hna : a.1 ∉ (b :: t).map Prod.fst := (List.nodup_cons.1 hnd).1
      have hkey : ((b :: t).getLast hne).1 ≠ a.1 := fun he => hna (he ▸ hmem)
      have hlast : (a :: b :: t).getLast h = (b :: t).getLast hne :=
        List.getLast_cons hne
      rw [hlast]
      simp only [List.lookup, beq_eq_false_iff_ne.2 hkey]
      exact ih hne (List.nodup_cons.1 hnd).2

/-- Claim C1 (amended): when the advertisement carries manufacturer data,
the decoder selects the entry appearing last in the mapping's iteration
(insertion) order — not the numerically greatest key — and reconstructs
the candidate frame as the 2-byte little-endian encoding of that entry's
identifier concatenated with its payload bytes. -/
theorem c1_last_entry_selected (md : List (Nat × List Nat)) (h : md ≠ [])
    (hnd : (md.map Prod.fst).Nodup) (hid : (md.getLast h).1 < 65536) :
    reconstructed_frame md
      = some ((md.getLast h).1 % 256
          :: (md.getLast h).1 / 256 % 256 :: (md.getLast h).2) := by
  unfold reconstructed_frame
  rw [List.getLast?_map, List.getLast?_eq_getLast md h]
  simp only [Option.map_some']
  rw [if_neg (by omega), lookup_getLast md h hnd]

/-- Witness for `c1_last_entry_selected` at a concrete two-entry mapping. -/
theorem c1_last_entry_selected_witness :
    reconstructed_frame [(5, [1]), (3, [2])] = some [3, 0, 2] :=
  c1_last_entry_selected [(5, [1]), (3, [2])] (List.cons_ne_nil _ _)
    (by decide) (by decide)

/-- Counterexample to claim C1 as stated: with entries inserted as keys
1027 then 1, the code reconstructs the frame from the last entry (key 1),
not from the entry with the numerically greatest key (1027), which the
spec-side selection would pick. -/
theorem c1_counterexample :
    reconstructed_frame [(1027, [3]), (1, [2])] = some [1, 0, 2]
      ∧ spec_greatest_frame [(1027, [3]), (1, [2])] = some [3, 4, 3] := by
  exact ⟨rfl, rfl⟩

/-- Claim C6: a 12-byte-frame device-type byte outside the registry makes
the decode fail with the device-type error (the propagated `KeyError` on
the unknown byte, the failure the spec names `UnknownDeviceType`) rather
than produce a reading, and device-type byte 0x04 resolves to the
descriptor ("Mopeka Air Space", "Tank"). -/
theorem c6_unknown_device_type :
    (∀ (self : MopekaBluetoothDeviceData) (address : String)
        (data : List Nat) (device_id : Nat),
        data[2]? = some device_id →
        DEVICE_TYPES.lookup device_id = none →
        self.handle_frame address data = .error (.keyError device_id))
      ∧ DEVICE_TYPES.lookup 0x04 = some ⟨"Mopeka Air Space", "Tank"⟩ := by
  refine ⟨?_, rfl⟩
  intro self address data device_id h2 hnone
  unfold MopekaBluetoothDeviceData.handle_frame
  simp only [h2, hnone]

/-- Witness for `c6_unknown_device_type` at the unregistered byte 0x02. -/
theorem c6_unknown_device_type_witness :
    (MopekaBluetoothDeviceData.init 256 38.1).handle_frame "00:00" [0, 0, 2]
      = .error (.keyError 2) :=
  c6_unknown_device_type.1 _ _ _ _ rfl rfl

/-- Counterexample to claim C4 as stated: a reconstructed 13-byte frame
whose device-type byte is unregistered (0x02) makes `_start_update` raise
`KeyError` instead of returning the ignored-frame outcome, because the
device-type lookup runs before any length check. -/
theorem c4_counterexample :
    (MopekaBluetoothDeviceData.init 256 38.1)._start_update
        ⟨[SERVICE_UUID], [(0, [2, 0, 0, 0, 0, 0, 0, 0, 0, 0, 0])],
          "AA:BB:CC:DD:EE:FF"⟩
      = .error (.keyError 2) := rfl

/-- Claim C4 (amended): a reconstructed frame whose length is not 12 never
has its fields extracted and produces no sensor readings, but the length
check does not precede the device-type lookup: the lookup (and the
metadata assignment) happens first, and only then does `_process_update`
drop the frame, leaving the sensor store untouched. -/
theorem c4_short_frame_no_extraction
    (self : MopekaBluetoothDeviceData) (address : String) (data : List Nat)
    (device_id : Nat) (device : MopekaDevice)
    (h2 : data[2]? = some device_id)
    (hdev : DEVICE_TYPES.lookup device_id = some device)
    (hlen : data.length ≠ 12) :
    self.handle_frame address data = .ok (self.set_metadata device address)
      ∧ (self.set_metadata device address).sensors = self.sensors := by
  refine ⟨?_, rfl⟩
  unfold MopekaBluetoothDeviceData.handle_frame
  simp only [h2, hdev]
  unfold MopekaBluetoothDeviceData._process_update
  rw [if_pos hlen]

/-- Witness for `c4_short_frame_no_extraction` on a 3-byte frame with the
registered device-type byte 0x03. -/
theorem c4_short_frame_no_extraction_witness :
    (MopekaBluetoothDeviceData.init 256 38.1).handle_frame "00:00" [0, 0, 3]
        = .ok ((MopekaBluetoothDeviceData.init 256 38.1).set_metadata
            ⟨"Mopeka Pro Check", "Propane Tank"⟩ "00:00")
      ∧ ((MopekaBluetoothDeviceData.init 256 38.1).set_metadata
            ⟨"Mopeka Pro Check", "Propane Tank"⟩ "00:00").sensors
        = (MopekaBluetoothDeviceData.init 256 38.1).sensors :=
  c4_short_frame_no_extraction _ _ _ _ _ rfl rfl (by decide)

/-- Claim C5 (code evaluated at the failing input): on a valid 12-byte
frame with X byte 7 and Y byte 9, the decoder stores the raw X and Y
bytes, but publishes them under the `quality` sensor key — the last write
(Y) wins — and publishes nothing under the `x_position` and `y_position`
keys that `MopekaSensor` declares for them. -/
theorem c5_positions_published_under_quality_key :
    ((MopekaBluetoothDeviceData.init 256 38.1)._start_update
        ⟨[SERVICE_UUID], [(89, [3, 75, 60, 136, 19, 0, 0, 0, 7, 9])],
          "AA:BB:CC:DD:EE:FF"⟩).toOption.map
        (fun s => (s.sensors MopekaSensor.X_POSITION,
                   s.sensors MopekaSensor.Y_POSITION,
                   s.sensors MopekaSensor.QUALITY,
                   s.XPosition, s.YPosition))
      = some (none, none, some ((9 : ℚ), "Y Position"), 7, 9) := rfl

/-- Claim C9: frame bytes 7, 8 and 9 are unused — two 12-byte frames that
agree everywhere outside positions 7..9 decode to identical states. -/
theorem c9_bytes_7_to_9_unused (self : MopekaBluetoothDeviceData)
    (d1 d2 : List Nat) (h1 : d1.length = 12) (h2 : d2.length = 12)
    (hagree : ∀ i, i < 12 → (i < 7 ∨ 9 < i) → d1.getD i 0 = d2.getD i 0) :
    self._process_update d1 = self._process_update d2 := by
  have e3 := hagree 3 (by omega) (by omega)
  have e4 := hagree 4 (by omega) (by omega)
  have e5 := hagree 5 (by omega) (by omega)
  have e6 := hagree 6 (by omega) (by omega)
  have e10 := hagree 10 (by omega) (by omega)
  have e11 := hagree 11 (by omega) (by omega)
  unfold MopekaBluetoothDeviceData._process_update
  rw [h1, h2, e3, e4, e5, e6, e10, e11]

/-- Witness for `c9_bytes_7_to_9_unused`: two concrete frames differing
exactly in bytes 7..9. -/
theorem c9_bytes_7_to_9_unused_witness :
    (MopekaBluetoothDeviceData.init 256 38.1)._process_update
        [89, 0, 3, 75, 60, 136, 19, 1, 2, 3, 7, 9]
      = (MopekaBluetoothDeviceData.init 256 38.1)._process_update
        [89, 0, 3, 75, 60, 136, 19, 250, 251, 252, 7, 9] :=
  c9_bytes_7_to_9_unused _ _ _ rfl rfl (by decide)

/-- Claim C10: an advertisement whose reconstructed frame has a registered
device-type byte but a length other than 12 produces no sensor readings,
yet still mutates the decoder state: device type, title, device name and
manufacturer metadata are set before the length check, so the state does
not stay unchanged on an ignored frame. -/
theorem c10_metadata_set_on_ignored_frame
    (self : MopekaBluetoothDeviceData) (info : BluetoothServiceInfo)
    (data : List Nat) (device_id : Nat) (device : MopekaDevice)
    (huuid : SERVICE_UUID ∈ info.service_uuids)
    (hne : info.manufacturer_data.isEmpty = false)
    (hframe : reconstructed_frame info.manufacturer_data = some data)
    (h2 : data[2]? = some device_id)
    (hdev : DEVICE_TYPES.lookup device_id = some device)
    (hlen : data.length ≠ 12) :
    self._start_update info = .ok (self.set_metadata device info.address)
      ∧ (self.set_metadata device info.address).sensors = self.sensors
      ∧ (self.set_metadata device info.address).device_type
          = some device.model
      ∧ (self.set_metadata device info.address).title
          = some (device.name ++ " " ++ short_address info.address)
      ∧ (self.set_metadata device info.address).device_name
          = some (device.name ++ " " ++ short_address info.address)
      ∧ (self.set_metadata device info.address).manufacturer = some "Mopeka"
      ∧ (self.manufacturer ≠ some "Mopeka" →
          self.set_metadata device info.address ≠ self) := by
  refine ⟨?_, rfl, rfl, rfl, rfl, rfl, ?_⟩
  · unfold MopekaBluetoothDeviceData._start_update
    rw [if_neg (by simpa using huuid)]
    simp only [MopekaBluetoothDeviceData.changed_manufacturer_data, hne,
      Bool.false_eq_true, if_false, hframe]
    unfold MopekaBluetoothDeviceData.handle_frame
    simp only [h2, hdev]
    unfold MopekaBluetoothDeviceData._process_update
    rw [if_pos hlen]
  · intro hm he
    exact hm (by simpa [MopekaBluetoothDeviceData.set_metadata] using
      (congrArg MopekaBluetoothDeviceData.manufacturer he).symm)

/-- Witness for `c10_metadata_set_on_ignored_frame`: a concrete
advertisement carrying a 5-byte frame with device-type byte 0x03. -/
theorem c10_metadata_set_on_ignored_frame_witness :
    (MopekaBluetoothDeviceData.init 256 38.1)._start_update
        ⟨[SERVICE_UUID], [(0, [3, 1, 2])], "AA:BB"⟩
      = .ok ((MopekaBluetoothDeviceData.init 256 38.1).set_metadata
          ⟨"Mopeka Pro Check", "Propane Tank"⟩ "AA:BB")
      ∧ ((MopekaBluetoothDeviceData.init 256 38.1).set_metadata
          ⟨"Mopeka Pro Check", "Propane Tank"⟩ "AA:BB").sensors
        = (MopekaBluetoothDeviceData.init 256 38.1).sensors :=
  ⟨(c10_metadata_set_on_ignored_frame _ ⟨[SERVICE_UUID], [(0, [3, 1, 2])], "AA:BB"⟩
      [0, 0, 3, 1, 2] 3 ⟨"Mopeka Pro Check", "Propane Tank"⟩
      (by decide) rfl rfl rfl rfl (by decide)).1,
   (c10_metadata_set_on_ignored_frame _ ⟨[SERVICE_UUID], [(0, [3, 1, 2])], "AA:BB"⟩
      [0, 0, 3, 1, 2] 3 ⟨"Mopeka Pro Check", "Propane Tank"⟩
      (by decide) rfl rfl rfl rfl (by decide)).2.1⟩

/-- Truncation toward zero agrees with the floor on nonnegative input. -/
lemma pyInt_eq_floor {q : ℚ} (h : 0 ≤ q) : pyInt q = ⌊q⌋ :=
  if_neg (not_lt.2 h)

/-- Truncation toward zero is the ceiling on negative input. -/
lemma pyInt_of_neg {q : ℚ} (h : q < 0) : pyInt q = ⌈q⌉ :=
  if_pos h

/-- The propane temperature-compensation polynomial is nonnegative on the
whole range of the masked 7-bit raw temperature. -/
lemma propane_poly_nonneg {t : ℕ} (ht : t ≤ 127) :
    0 ≤ MOPEKA_TANK_LEVEL_COEFFICIENTS_PROPANE.1
        + MOPEKA_TANK_LEVEL_COEFFICIENTS_PROPANE.2.1 * (t : ℚ)
        + MOPEKA_TANK_LEVEL_COEFFICIENTS_PROPANE.2.2 * (t : ℚ) * (t : ℚ) := by
  have h1 : (t : ℚ) ≤ 127 := by exact_mod_cast ht
  have h0 : (0 : ℚ) ≤ (t : ℚ) := Nat.cast_nonneg t
  have h2 : (t : ℚ) * (t : ℚ) ≤ 127 * 127 := by nlinarith
  simp only [MOPEKA_TANK_LEVEL_COEFFICIENTS_PROPANE]
  norm_num
  nlinarith

/-- The raw fields extracted from a 12-byte frame by `_process_update`. -/
lemma process_update_raw_fields (self : MopekaBluetoothDeviceData)
    (data : List Nat) (h : data.length = 12) :
    (self._process_update data)._raw_battery = data.getD 3 0 &&& 0x7F
      ∧ (self._process_update data)._raw_temp = data.getD 4 0 &&& 0x7F
      ∧ (self._process_update data)._raw_tank_level
          = ((data.getD 6 0 <<< 8) + data.getD 5 0) &&& 0x3FFF
      ∧ (self._process_update data)._raw_x_accel = data.getD 10 0
      ∧ (self._process_update data)._raw_y_accel = data.getD 11 0 := by
  unfold MopekaBluetoothDeviceData._process_update
  rw [if_neg (by omega)]
  exact ⟨rfl, rfl, rfl, rfl, rfl⟩

/-- Shared concrete evaluation: raw level 5000 at raw temperature 20 gives
a tank level of 2572 millimetres. -/
lemma tank_level_5000_20 :
    ({ MopekaBluetoothDeviceData.init 256 38.1 with
        _raw_tank_level := 5000, _raw_temp := 20 } :
        MopekaBluetoothDeviceData).TankLevelInMM = 2572 := by
  show pyInt (((5000 : ℕ) : ℚ) *
    (MOPEKA_TANK_LEVEL_COEFFICIENTS_PROPANE.1
      + MOPEKA_TANK_LEVEL_COEFFICIENTS_PROPANE.2.1 * ((20 : ℕ) : ℚ)
      + MOPEKA_TANK_LEVEL_COEFFICIENTS_PROPANE.2.2 * ((20 : ℕ) : ℚ)
          * ((20 : ℕ) : ℚ))) = 2572
  have hq : ((5000 : ℕ) : ℚ) *
      (MOPEKA_TANK_LEVEL_COEFFICIENTS_PROPANE.1
        + MOPEKA_TANK_LEVEL_COEFFICIENTS_PROPANE.2.1 * ((20 : ℕ) : ℚ)
        + MOPEKA_TANK_LEVEL_COEFFICIENTS_PROPANE.2.2 * ((20 : ℕ) : ℚ)
            * ((20 : ℕ) : ℚ)) = 514465 / 200 := by
    simp only [MOPEKA_TANK_LEVEL_COEFFICIENTS_PROPANE]
    norm_num
  rw [hq, pyInt_eq_floor (by norm_num), Int.floor_eq_iff]
  constructor <;> norm_num

/-- Claim C3 (amended): for every 12-byte frame the tank level in
millimetres is the floor of rawLevel times the quadratic propane
polynomial with the stated coefficients; at rawLevel 5000 and rawTemp 20
the value is 2572 (the formula itself refutes the spec's 2583). -/
theorem c3_tank_level_formula :
    (∀ (self : MopekaBluetoothDeviceData) (data : List Nat),
        data.length = 12 →
        (self._process_update data).TankLevelInMM
          = ⌊((self._process_update data)._raw_tank_level : ℚ) *
              ((0.573045 : ℚ)
                + (-0.002822 : ℚ) * ((self._process_update data)._raw_temp : ℚ)
                + (-0.00000535 : ℚ) * ((self._process_update data)._raw_temp : ℚ)
                    * ((self._process_update data)._raw_temp : ℚ))⌋)
      ∧ ({ MopekaBluetoothDeviceData.init 256 38.1 with
            _raw_tank_level := 5000, _raw_temp := 20 } :
            MopekaBluetoothDeviceData).TankLevelInMM = 2572 := by
  refine ⟨?_, tank_level_5000_20⟩
  intro self data h
  have ht : (self._process_update data)._raw_temp ≤ 127 := by
    rw [(process_update_raw_fields self data h).2.1]
    exact Nat.and_le_right
  unfold MopekaBluetoothDeviceData.TankLevelInMM
  rw [pyInt_eq_floor (mul_nonneg (Nat.cast_nonneg _) (propane_poly_nonneg ht))]
  simp only [MOPEKA_TANK_LEVEL_COEFFICIENTS_PROPANE]

/-- Witness for the universal part of `c3_tank_level_formula` at a
concrete 12-byte frame encoding raw level 5000 and raw temperature 20. -/
theorem c3_tank_level_formula_witness :
    ((MopekaBluetoothDeviceData.init 256 38.1)._process_update
        [0, 0, 3, 0, 20, 136, 19, 0, 0, 0, 0, 0]).TankLevelInMM
      = ⌊(((MopekaBluetoothDeviceData.init 256 38.1)._process_update
            [0, 0, 3, 0, 20, 136, 19, 0, 0, 0, 0, 0])._raw_tank_level : ℚ) *
          ((0.573045 : ℚ)
            + (-0.002822 : ℚ) * (((MopekaBluetoothDeviceData.init 256 38.1)._process_update
                [0, 0, 3, 0, 20, 136, 19, 0, 0, 0, 0, 0])._raw_temp : ℚ)
            + (-0.00000535 : ℚ) * (((MopekaBluetoothDeviceData.init 256 38.1)._process_update
                [0, 0, 3, 0, 20, 136, 19, 0, 0, 0, 0, 0])._raw_temp : ℚ)
                * (((MopekaBluetoothDeviceData.init 256 38.1)._process_update
                [0, 0, 3, 0, 20, 136, 19, 0, 0, 0, 0, 0])._raw_temp : ℚ))⌋ :=
  c3_tank_level_formula.1 _ _ rfl

/-- Counterexample to claim C3 as stated: at raw level 5000 and raw
temperature 20 the code yields 2572 millimetres, not the 2583 the claim
asserts (the spec's worked example dropped the quadratic term). -/
theorem c3_counterexample :
    ({ MopekaBluetoothDeviceData.init 256 38.1 with
        _raw_tank_level := 5000, _raw_temp := 20 } :
        MopekaBluetoothDeviceData).TankLevelInMM ≠ 2583 := by
  rw [tank_level_5000_20]
  decide

/-- Shared concrete evaluation: raw level 257 at raw temperature 0 gives a
tank level of 147 millimetres. -/
lemma tank_level_257_0 :
    ({ MopekaBluetoothDeviceData.init 256 38.1 with
        _raw_tank_level := 257, _raw_temp := 0 } :
        MopekaBluetoothDeviceData).TankLevelInMM = 147 := by
  show pyInt (((257 : ℕ) : ℚ) *
    (MOPEKA_TANK_LEVEL_COEFFICIENTS_PROPANE.1
      + MOPEKA_TANK_LEVEL_COEFFICIENTS_PROPANE.2.1 * ((0 : ℕ) : ℚ)
      + MOPEKA_TANK_LEVEL_COEFFICIENTS_PROPANE.2.2 * ((0 : ℕ) : ℚ)
          * ((0 : ℕ) : ℚ))) = 147
  have hq : ((257 : ℕ) : ℚ) *
      (MOPEKA_TANK_LEVEL_COEFFICIENTS_PROPANE.1
        + MOPEKA_TANK_LEVEL_COEFFICIENTS_PROPANE.2.1 * ((0 : ℕ) : ℚ)
        + MOPEKA_TANK_LEVEL_COEFFICIENTS_PROPANE.2.2 * ((0 : ℕ) : ℚ)
            * ((0 : ℕ) : ℚ)) = 29454513 / 200000 := by
    simp only [MOPEKA_TANK_LEVEL_COEFFICIENTS_PROPANE]
    norm_num
  rw [hq, pyInt_eq_floor (by norm_num), Int.floor_eq_iff]
  constructor <;> norm_num

/-- Claim C7 (amended): the tank-level percentage is the truncation toward
zero of ((mm - minHeight) * 100) / (maxHeight - minHeight); this agrees
with the floor exactly when mm is at least minHeight, and with
minHeight 38.1, maxHeight 256 and mm 147 the result is 49. -/
theorem c7_tank_percent_formula :
    (∀ self : MopekaBluetoothDeviceData,
        self._min_height < self._max_height →
        self._min_height ≤ (self.TankLevelInMM : ℚ) →
        self.TankLevelInPercent
          = ⌊(((self.TankLevelInMM : ℚ) - self._min_height) * 100)
              / (self._max_height - self._min_height)⌋)
      ∧ ({ MopekaBluetoothDeviceData.init 256 38.1 with
            _raw_tank_level := 257, _raw_temp := 0 } :
            MopekaBluetoothDeviceData).TankLevelInPercent = 49
      ∧ ({ MopekaBluetoothDeviceData.init 256 38.1 with
            _raw_tank_level := 257, _raw_temp := 0 } :
            MopekaBluetoothDeviceData).TankLevelInMM = 147 := by
  refine ⟨?_, ?_, tank_level_257_0⟩
  · intro self hlt hle
    unfold MopekaBluetoothDeviceData.TankLevelInPercent
    rw [show (100.0 : ℚ) = 100 from by norm_num]
    exact pyInt_eq_floor (div_nonneg
      (mul_nonneg (sub_nonneg.2 hle) (by norm_num)) (by linarith))
  · unfold MopekaBluetoothDeviceData.TankLevelInPercent
    rw [tank_level_257_0]
    have hq : (((147 : ℤ) : ℚ) - (38.1 : ℚ)) * 100.0 / ((256 : ℚ) - 38.1)
        = 108900 / 2179 := by norm_num
    rw [show ({ MopekaBluetoothDeviceData.init 256 38.1 with
          _raw_tank_level := 257, _raw_temp := 0 } :
          MopekaBluetoothDeviceData)._min_height = (38.1 : ℚ) from rfl,
        show ({ MopekaBluetoothDeviceData.init 256 38.1 with
          _raw_tank_level := 257, _raw_temp := 0 } :
          MopekaBluetoothDeviceData)._max_height = (256 : ℚ) from rfl,
        hq, pyInt_eq_floor (by norm_num), Int.floor_eq_iff]
    constructor <;> norm_num

/-- Witness for the universal part of `c7_tank_percent_formula` at the
concrete state of the worked example. -/
theorem c7_tank_percent_formula_witness :
    ({ MopekaBluetoothDeviceData.init 256 38.1 with
        _raw_tank_level := 257, _raw_temp := 0 } :
        MopekaBluetoothDeviceData).TankLevelInPercent
      = ⌊(((({ MopekaBluetoothDeviceData.init 256 38.1 with
            _raw_tank_level := 257, _raw_temp := 0 } :
            MopekaBluetoothDeviceData).TankLevelInMM : ℚ) - (38.1 : ℚ)) * 100)
          / ((256 : ℚ) - (38.1 : ℚ))⌋ :=
  c7_tank_percent_formula.1 _
    (by show (38.1 : ℚ) < (256 : ℚ); norm_num)
    (by rw [tank_level_257_0]; show (38.1 : ℚ) ≤ ((147 : ℤ) : ℚ); norm_num)

/-- Counterexample to claim C7 as stated: with the default calibration and
a decoded tank level of 0 mm the code truncates toward zero and returns
-17, while the floor of the same expression is -18. -/
theorem c7_counterexample :
    ({ MopekaBluetoothDeviceData.init 256 38.1 with
        _raw_tank_level := 0, _raw_temp := 0 } :
        MopekaBluetoothDeviceData).TankLevelInPercent = -17
      ∧ ⌊(((({ MopekaBluetoothDeviceData.init 256 38.1 with
            _raw_tank_level := 0, _raw_temp := 0 } :
            MopekaBluetoothDeviceData).TankLevelInMM : ℚ) - (38.1 : ℚ)) * 100)
          / ((256 : ℚ) - (38.1 : ℚ))⌋ = -18 := by
  have hmm : ({ MopekaBluetoothDeviceData.init 256 38.1 with
      _raw_tank_level := 0, _raw_temp := 0 } :
      MopekaBluetoothDeviceData).TankLevelInMM = 0 := by
    show pyInt (((0 : ℕ) : ℚ) * _) = 0
    rw [show (((0 : ℕ) : ℚ) = (0 : ℚ)) from rfl, zero_mul,
      pyInt_eq_floor le_rfl]
    exact Int.floor_zero
  constructor
  · unfold MopekaBluetoothDeviceData.TankLevelInPercent
    rw [hmm]
    have hq : (((0 : ℤ) : ℚ) - (38.1 : ℚ)) * 100.0 / ((256 : ℚ) - 38.1)
        = -(38100 / 2179) := by norm_num
    rw [show ({ MopekaBluetoothDeviceData.init 256 38.1 with
          _raw_tank_level := 0, _raw_temp := 0 } :
          MopekaBluetoothDeviceData)._min_height = (38.1 : ℚ) from rfl,
        show ({ MopekaBluetoothDeviceData.init 256 38.1 with
          _raw_tank_level := 0, _raw_temp := 0 } :
          MopekaBluetoothDeviceData)._max_height = (256 : ℚ) from rfl,
        hq, pyInt_of_neg (by norm_num), Int.ceil_eq_iff]
    constructor <;> norm_num
  · rw [hmm]
    have hq : (((0 : ℤ) : ℚ) - (38.1 : ℚ)) * 100 / ((256 : ℚ) - 38.1)
        = -(38100 / 2179) := by norm_num
    rw [hq, Int.floor_eq_iff]
    constructor <;> norm_num

/-- Round half to even never goes below the floor. -/
lemma floor_le_pyRoundHalfEven (q : ℚ) : ⌊q⌋ ≤ pyRoundHalfEven q := by
  unfold pyRoundHalfEven
  split_ifs <;> omega

/-- Round half to even of a value at most an integer stays at most that
integer. -/
lemma pyRoundHalfEven_le {q : ℚ} {n : ℤ} (h : q ≤ (n : ℚ)) :
    pyRoundHalfEven q ≤ n := by
  have hfl : ⌊q⌋ ≤ n := by
    have := Int.floor_le_floor h
    rwa [Int.floor_intCast] at this
  have hq : (⌊q⌋ : ℚ) ≤ q := Int.floor_le q
  unfold pyRoundHalfEven
  split_ifs with h1 h2 h3
  · exact hfl
  · have : (⌊q⌋ : ℚ) < (n : ℚ) := by linarith
    have : ⌊q⌋ < n := by exact_mod_cast this
    omega
  · exact hfl
  · have : (⌊q⌋ : ℚ) < (n : ℚ) := by linarith
    have : ⌊q⌋ < n := by exact_mod_cast this
    omega

/-- Round half to even is monotone. -/
lemma pyRoundHalfEven_mono {q q' : ℚ} (h : q ≤ q') :
    pyRoundHalfEven q ≤ pyRoundHalfEven q' := by
  rcases lt_or_le ⌊q⌋ ⌊q'⌋ with hf | hf
  · have h1 : pyRoundHalfEven q ≤ ⌊q⌋ + 1 := by
      unfold pyRoundHalfEven; split_ifs <;> omega
    have h2 := floor_le_pyRoundHalfEven q'
    omega
  · have heq : ⌊q'⌋ = ⌊q⌋ := le_antisymm hf (Int.floor_le_floor h)
    have hfr : q - (⌊q⌋ : ℚ) ≤ q' - (⌊q'⌋ : ℚ) := by rw [heq]; linarith
    unfold pyRoundHalfEven
    rw [heq]
    rw [heq] at hfr
    split_ifs <;> first | omega | linarith

/-- `pyRound1` is nonnegative on nonnegative input. -/
lemma pyRound1_nonneg {q : ℚ} (h : 0 ≤ q) : 0 ≤ pyRound1 q := by
  unfold pyRound1
  apply div_nonneg _ (by norm_num)
  have h0 : (0 : ℤ) ≤ ⌊q * 10⌋ := by
    rw [Int.le_floor]
    push_cast
    nlinarith
  have := le_trans h0 (floor_le_pyRoundHalfEven (q * 10))
  exact_mod_cast this

/-- `pyRound1` of a value at most 100 stays at most 100. -/
lemma pyRound1_le_100 {q : ℚ} (h : q ≤ 100) : pyRound1 q ≤ 100 := by
  unfold pyRound1
  have h1000 : pyRoundHalfEven (q * 10) ≤ (1000 : ℤ) := by
    apply pyRoundHalfEven_le
    push_cast
    linarith
  have : ((pyRoundHalfEven (q * 10) : ℚ)) ≤ 1000 := by exact_mod_cast h1000
  linarith

/-- `pyRound1` is monotone. -/
lemma pyRound1_mono {q q' : ℚ} (h : q ≤ q') : pyRound1 q ≤ pyRound1 q' := by
  unfold pyRound1
  have := pyRoundHalfEven_mono (mul_le_mul_of_nonneg_right h (by norm_num : (0:ℚ) ≤ 10))
  have hc : ((pyRoundHalfEven (q * 10) : ℚ)) ≤ ((pyRoundHalfEven (q' * 10) : ℚ)) := by
    exact_mod_cast this
  linarith

/-- The battery percentage is never negative, whatever the raw byte. -/
lemma battery_percent_nonneg (self : MopekaBluetoothDeviceData) :
    0 ≤ self.BatteryPercent := by
  simp only [MopekaBluetoothDeviceData.BatteryPercent]
  split_ifs with h1 h2
  · norm_num
  · norm_num
  · have h : (0 : ℚ) ≤ ((self.BatteryVoltage - 2.2) / 0.65) * 100 := by
      have := not_lt.1 h2
      rw [show (0.0 : ℚ) = 0 from by norm_num] at this
      exact this
    exact pyRound1_nonneg h

/-- The battery percentage never exceeds 100, whatever the raw byte. -/
lemma battery_percent_le_100 (self : MopekaBluetoothDeviceData) :
    self.BatteryPercent ≤ 100 := by
  simp only [MopekaBluetoothDeviceData.BatteryPercent]
  split_ifs with h1 h2
  · norm_num
  · norm_num
  · have h : ((self.BatteryVoltage - 2.2) / 0.65) * 100 ≤ 100 := by
      have := not_lt.1 h1
      rw [show (100.0 : ℚ) = 100 from by norm_num] at this
      exact this
    exact pyRound1_le_100 h

/-- The battery percentage is monotone in the raw battery byte. -/
lemma battery_percent_mono (s s' : MopekaBluetoothDeviceData)
    (hb : s._raw_battery ≤ s'._raw_battery) :
    s.BatteryPercent ≤ s'.BatteryPercent := by
  have hc : ((s._raw_battery : ℚ)) ≤ ((s'._raw_battery : ℚ)) :=
    Nat.cast_le.2 hb
  have hpp : ((s.BatteryVoltage - 2.2) / 0.65) * 100
      ≤ ((s'.BatteryVoltage - 2.2) / 0.65) * 100 := by
    unfold MopekaBluetoothDeviceData.BatteryVoltage
    rw [div_mul_eq_mul_div, div_mul_eq_mul_div, div_le_div_iff₀] <;> nlinarith
  simp only [MopekaBluetoothDeviceData.BatteryPercent]
  rw [show (100.0 : ℚ) = 100 from by norm_num,
    show (0.0 : ℚ) = 0 from by norm_num]
  split_ifs
  all_goals first
    | linarith
    | exact pyRound1_nonneg (by linarith)
    | exact pyRound1_le_100 (by linarith)
    | exact pyRound1_mono hpp

/-- Claim C8: over raw battery bytes 0..127 the battery percentage is
monotonically non-decreasing and always lies within [0, 100]. -/
theorem c8_battery_percent_monotone_bounded :
    (∀ b : ℕ, b < 127 →
        ({ MopekaBluetoothDeviceData.init 256 38.1 with _raw_battery := b } :
          MopekaBluetoothDeviceData).BatteryPercent
          ≤ ({ MopekaBluetoothDeviceData.init 256 38.1 with
              _raw_battery := b + 1 } :
          MopekaBluetoothDeviceData).BatteryPercent)
      ∧ (∀ b : ℕ, b ≤ 127 →
          0 ≤ ({ MopekaBluetoothDeviceData.init 256 38.1 with
              _raw_battery := b } :
              MopekaBluetoothDeviceData).BatteryPercent
            ∧ ({ MopekaBluetoothDeviceData.init 256 38.1 with
              _raw_battery := b } :
              MopekaBluetoothDeviceData).BatteryPercent ≤ 100) := by
  constructor
  · intro b _
    exact battery_percent_mono _ _ (Nat.le_succ b)
  · intro b _
    exact ⟨battery_percent_nonneg _, battery_percent_le_100 _⟩

/-- Witness for `c8_battery_percent_monotone_bounded` at the raw byte 0. -/
theorem c8_battery_percent_monotone_bounded_witness :
    (0 : ℕ) < 127 ∧ (0 : ℕ) ≤ 127
      ∧ ({ MopekaBluetoothDeviceData.init 256 38.1 with _raw_battery := 0 } :
          MopekaBluetoothDeviceData).BatteryPercent
        ≤ ({ MopekaBluetoothDeviceData.init 256 38.1 with _raw_battery := 1 } :
          MopekaBluetoothDeviceData).BatteryPercent
      ∧ 0 ≤ ({ MopekaBluetoothDeviceData.init 256 38.1 with _raw_battery := 0 } :
          MopekaBluetoothDeviceData).BatteryPercent
      ∧ ({ MopekaBluetoothDeviceData.init 256 38.1 with _raw_battery := 0 } :
          MopekaBluetoothDeviceData).BatteryPercent ≤ 100 :=
  ⟨by decide, by decide,
    c8_battery_percent_monotone_bounded.1 0 (by decide),
    c8_battery_percent_monotone_bounded.2 0 (by decide)⟩

/-- Setting the metadata twice with the same descriptor and address is the
same as setting it once. -/
lemma set_metadata_set_metadata (s : MopekaBluetoothDeviceData)
    (dev : MopekaDevice) (addr : String) :
    (s.set_metadata dev addr).set_metadata dev addr
      = s.set_metadata dev addr := rfl

set_option maxHeartbeats 1000000 in
/-- The metadata setters and the frame processing touch disjoint fields,
so they commute. -/
lemma set_metadata_process_update (s : MopekaBluetoothDeviceData)
    (dev : MopekaDevice) (addr : String) (data : List Nat) :
    (s._process_update data).set_metadata dev addr
      = (s.set_metadata dev addr)._process_update data := by
  unfold MopekaBluetoothDeviceData._process_update
  by_cases h : data.length ≠ 12
  · rw [if_pos h, if_pos h]
  · rw [if_neg h, if_neg h]
    rfl

/-- Projection lemmas: `update_sensor` changes only the sensor store. -/
lemma update_sensor_max_height (s : MopekaBluetoothDeviceData) (k : String)
    (v : ℚ) (n : String) : (s.update_sensor k v n)._max_height = s._max_height := rfl

lemma update_sensor_min_height (s : MopekaBluetoothDeviceData) (k : String)
    (v : ℚ) (n : String) : (s.update_sensor k v n)._min_height = s._min_height := rfl

lemma update_sensor_precision (s : MopekaBluetoothDeviceData) (k : String)
    (v : ℚ) (n : String) : (s.update_sensor k v n).precision = s.precision := rfl

lemma update_sensor_device_type (s : MopekaBluetoothDeviceData) (k : String)
    (v : ℚ) (n : String) : (s.update_sensor k v n).device_type = s.device_type := rfl

lemma update_sensor_title (s : MopekaBluetoothDeviceData) (k : String)
    (v : ℚ) (n : String) : (s.update_sensor k v n).title = s.title := rfl

lemma update_sensor_device_name (s : MopekaBluetoothDeviceData) (k : String)
    (v : ℚ) (n : String) : (s.update_sensor k v n).device_name = s.device_name := rfl

lemma update_sensor_manufacturer (s : MopekaBluetoothDeviceData) (k : String)
    (v : ℚ) (n : String) : (s.update_sensor k v n).manufacturer = s.manufacturer := rfl

lemma update_sensor_raw_battery (s : MopekaBluetoothDeviceData) (k : String)
    (v : ℚ) (n : String) : (s.update_sensor k v n)._raw_battery = s._raw_battery := rfl

lemma update_sensor_raw_temp (s : MopekaBluetoothDeviceData) (k : String)
    (v : ℚ) (n : String) : (s.update_sensor k v n)._raw_temp = s._raw_temp := rfl

lemma update_sensor_raw_tank_level (s : MopekaBluetoothDeviceData) (k : String)
    (v : ℚ) (n : String) :
    (s.update_sensor k v n)._raw_tank_level = s._raw_tank_level := rfl

lemma update_sensor_quality_stars (s : MopekaBluetoothDeviceData) (k : String)
    (v : ℚ) (n : String) :
    (s.update_sensor k v n).ReadingQualityStars = s.ReadingQualityStars := rfl

lemma update_sensor_raw_x_accel (s : MopekaBluetoothDeviceData) (k : String)
    (v : ℚ) (n : String) : (s.update_sensor k v n)._raw_x_accel = s._raw_x_accel := rfl

lemma update_sensor_raw_y_accel (s : MopekaBluetoothDeviceData) (k : String)
    (v : ℚ) (n : String) : (s.update_sensor k v n)._raw_y_accel = s._raw_y_accel := rfl

lemma update_sensor_sensors (s : MopekaBluetoothDeviceData) (k : String)
    (v : ℚ) (n : String) :
    (s.update_sensor k v n).sensors
      = fun x => if x = k then some (v, n) else s.sensors x := rfl

set_option maxHeartbeats 2000000 in
/-- Processing the same 12-byte frame a second time rewrites every scratch
field and every sensor entry with the value it already has. -/
lemma process_update_idem (s : MopekaBluetoothDeviceData) (data : List Nat) :
    (s._process_update data)._process_update data = s._process_update data := by
  by_cases h : data.length ≠ 12
  · unfold MopekaBluetoothDeviceData._process_update
    simp only [if_pos h]
  · unfold MopekaBluetoothDeviceData._process_update
    simp only [if_neg h]
    refine MopekaBluetoothDeviceData.ext ?_ ?_ ?_ ?_ ?_ ?_ ?_ ?_ ?_ ?_ ?_ ?_ ?_ ?_ <;>
      simp only [update_sensor_max_height, update_sensor_min_height,
        update_sensor_precision, update_sensor_device_type, update_sensor_title,
        update_sensor_device_name, update_sensor_manufacturer,
        update_sensor_raw_battery, update_sensor_raw_temp,
        update_sensor_raw_tank_level, update_sensor_quality_stars,
        update_sensor_raw_x_accel, update_sensor_raw_y_accel,
        update_sensor_sensors]
    funext k
    simp only [MopekaBluetoothDeviceData.TankLevelInPercent,
      MopekaBluetoothDeviceData.TankLevelInMM,
      MopekaBluetoothDeviceData.BatteryPercent,
      MopekaBluetoothDeviceData.BatteryVoltage,
      MopekaBluetoothDeviceData.TemperatureInCelsius,
      MopekaBluetoothDeviceData.XPosition, MopekaBluetoothDeviceData.YPosition,
      update_sensor_max_height, update_sensor_min_height,
      update_sensor_raw_battery, update_sensor_raw_temp,
      update_sensor_raw_tank_level, update_sensor_quality_stars,
      update_sensor_raw_x_accel, update_sensor_raw_y_accel,
      update_sensor_sensors]
    by_cases hq : k = MopekaSensor.QUALITY
    · simp [hq]
    · by_cases htmp : k = MopekaSensor.TEMPERATURE
      · simp [hq, htmp]
      · by_cases hbat : k = MopekaSensor.BATTERY
        · simp [hq, htmp, hbat]
        · by_cases hlev : k = MopekaSensor.LEVEL
          · simp [hq, htmp, hbat, hlev]
          · simp [hq, htmp, hbat, hlev]

/-- Claim C2: decoding is idempotent — a second `_start_update` call with
the identical advertisement on the state the first call produced returns
that state unchanged, every sensor entry and every metadata field being
rewritten with the value it already has. -/
theorem c2_decode_idempotent (self self' : MopekaBluetoothDeviceData)
    (info : BluetoothServiceInfo)
    (h : self._start_update info = .ok self') :
    self'._start_update info = .ok self' := by
  unfold MopekaBluetoothDeviceData._start_update at h ⊢
  by_cases hu : SERVICE_UUID ∉ info.service_uuids
  · rw [if_pos hu]
  · rw [if_neg hu] at h ⊢
    simp only [MopekaBluetoothDeviceData.changed_manufacturer_data] at h ⊢
    by_cases he : info.manufacturer_data.isEmpty
    · rw [if_pos he]
    · rw [if_neg he] at h ⊢
      cases hf : reconstructed_frame info.manufacturer_data with
      | none =>
        simp only [hf] at h
        exact Except.noConfusion h
      | some data =>
        simp only [hf] at h ⊢
        unfold MopekaBluetoothDeviceData.handle_frame at h ⊢
        cases h2 : data[2]? with
        | none =>
          simp only [h2] at h
          exact Except.noConfusion h
        | some device_id =>
          simp only [h2] at h ⊢
          cases hd : DEVICE_TYPES.lookup device_id with
          | none =>
            simp only [hd] at h
            exact Except.noConfusion h
          | some device =>
            simp only [hd, Except.ok.injEq] at h ⊢
            rw [← h, set_metadata_process_update, set_metadata_set_metadata,
              process_update_idem]

/-- Witness for `c2_decode_idempotent`: a second decode of an
advertisement without the Mopeka service UUID returns the fresh state
unchanged again. -/
theorem c2_decode_idempotent_witness :
    (MopekaBluetoothDeviceData.init 256 38.1)._start_update ⟨[], [], "AA:BB"⟩
      = .ok (MopekaBluetoothDeviceData.init 256 38.1) :=
  c2_decode_idempotent _ _ _ rfl

end MopekaBle
